import Mathlib

/-!
Verification of the synthetic-series generators of the
GRACE-constellation-optimization dashboard (`src/app.py`).

The two reusable functions of the repository are

```python
def random_constellations(num, gen):
    Jso = np.random.rand(num) / gen**0.5 + 0.02
    Jto = np.random.rand(num) / gen**0.5 + 0.02
    return Jso, Jto

def geoid_error(n):
    np.random.seed(42)
    signal = 1e-4 / (np.arange(1, n+1)**2)
    error = signal + np.random.normal(0, 0.2*signal, n)
    return signal, error
```

Both consume numpy's process-wide pseudo-random generator.  We embed that
generator as an explicit state `RandState` threaded through the functions:
`np.random.rand` reads from a stream of uniform draws (each in `[0,1)`),
`np.random.normal(0, σ, n)` reads from a stream of standard normal draws
`z` and returns `σ * z`, and `np.random.seed k` replaces the whole state by
a state determined by the seed alone.  The map from seeds to states is
numpy's Mersenne-Twister initialisation, which is outside the repository;
it is kept as an explicit parameter `seedFn` of the embedding, so every
theorem holds for numpy's actual initialisation in particular.  Floating
point arithmetic is idealised as real arithmetic, and `gen**0.5` (for the
nonnegative integer `gen`) is `Real.sqrt gen`.
-/

/-- State of the process-wide numpy random generator: a stream of uniform
draws, a stream of standard normal draws, and the positions reached in
each stream. -/
structure RandState where
  uniforms : ℕ → ℝ
  normals : ℕ → ℝ
  uIdx : ℕ
  nIdx : ℕ

/-- Well-formedness of a generator state: uniform draws lie in `[0, 1)`,
as `np.random.rand` guarantees. -/
def RandState.wf (s : RandState) : Prop :=
  ∀ i, 0 ≤ s.uniforms i ∧ s.uniforms i < 1

/-- Embedding of `np.random.rand(num)`: the next `num` uniform draws,
advancing the uniform position. -/
def npRand (num : ℕ) (s : RandState) : List ℝ × RandState :=
  ((List.range num).map (fun i => s.uniforms (s.uIdx + i)),
   { s with uIdx := s.uIdx + num })

/-- Embedding of `np.random.normal(0, sigma, n)` with a per-element
standard deviation `sigma i`: each draw is `sigma i` times the next
standard normal draw, advancing the normal position. -/
def npNormal (sigma : ℕ → ℝ) (n : ℕ) (s : RandState) : List ℝ × RandState :=
  ((List.range n).map (fun i => sigma i * s.normals (s.nIdx + i)),
   { s with nIdx := s.nIdx + n })

/-- Embedding of `np.random.seed(k)`: the previous state is discarded and
replaced by the state `seedFn k` that the seed alone determines. -/
def npSeed (seedFn : ℕ → RandState) (k : ℕ) (_s : RandState) : RandState :=
  seedFn k

/-- Embedding of `random_constellations(num, gen)` from `src/app.py`:
two batches of `num` uniform draws, each divided by `gen**0.5` and offset
by `0.02`.  Returns the pair `(Jso, Jto)` together with the final
generator state. -/
noncomputable def random_constellations (num gen : ℕ) (s : RandState) :
    List ℝ × List ℝ × RandState :=
  let r1 := npRand num s
  let r2 := npRand num r1.2
  (r1.1.map (fun u => u / Real.sqrt gen + 0.02),
   r2.1.map (fun u => u / Real.sqrt gen + 0.02),
   r2.2)

/-- The constant `c = 1e-4` of the truth curve in `geoid_error`. -/
noncomputable def geoidConst : ℝ := 1e-4

/-- Element `i` (0-based) of `1e-4 / (np.arange(1, n+1)**2)`. -/
noncomputable def geoidSignal (i : ℕ) : ℝ := geoidConst / ((i : ℝ) + 1) ^ 2

/-- Embedding of the body of `geoid_error(n)` with the seed value made
explicit: `np.random.seed(seed)`, then `signal = 1e-4 / (arange(1,n+1)**2)`
and `error = signal + normal(0, 0.2*signal, n)`.  In `src/app.py` the seed
is the literal `42`; see `geoid_error`. -/
noncomputable def geoid_error_seeded (seedFn : ℕ → RandState) (seed n : ℕ)
    (s : RandState) : List ℝ × List ℝ × RandState :=
  let s0 := npSeed seedFn seed s
  let signal := (List.range n).map geoidSignal
  let r := npNormal (fun i => 0.2 * geoidSignal i) n s0
  (signal, List.zipWith (· + ·) signal r.1, r.2)

/-- Embedding of `geoid_error(n)` from `src/app.py`: the seed is the
hardcoded literal `42`. -/
noncomputable def geoid_error (seedFn : ℕ → RandState) (n : ℕ)
    (s : RandState) : List ℝ × List ℝ × RandState :=
  geoid_error_seeded seedFn 42 n s

/-- A concrete generator state whose draws are all zero, used to
instantiate closed statements. -/
noncomputable def zeroState : RandState :=
  { uniforms := fun _ => 0, normals := fun _ => 0, uIdx := 0, nIdx := 0 }

/-- A concrete generator state whose uniform draws are all `1/2`, used to
instantiate closed statements. -/
noncomputable def halfState : RandState :=
  { uniforms := fun _ => 1/2, normals := fun _ => 0, uIdx := 0, nIdx := 0 }

/-- A concrete seed-to-state map sending every seed to `zeroState`, used to
instantiate closed statements about the seed-parametric embedding. -/
noncomputable def zeroSeedFn : ℕ → RandState := fun _ => zeroState

/-- C8: the generator functions are total: for every count and generation
index, `random_constellations` returns two sequences of the requested
length, and for every `n`, `geoid_error` returns two sequences of length
`n`; no error branch exists. -/
theorem C8_generators_total (seedFn : ℕ → RandState) (num gen n : ℕ)
    (s : RandState) :
    (random_constellations num gen s).1.length = num ∧
    (random_constellations num gen s).2.1.length = num ∧
    (geoid_error seedFn n s).1.length = n ∧
    (geoid_error seedFn n s).2.1.length = n := by
  simp [random_constellations, npRand, geoid_error, geoid_error_seeded,
    npNormal, npSeed]

/-- C10: `random_constellations` performs no input validation: with
`count = 0` it raises no error and returns two empty sequences. -/
theorem C10_count_zero_empty (gen : ℕ) (s : RandState) :
    (random_constellations 0 gen s).1 = [] ∧
    (random_constellations 0 gen s).2.1 = [] := by
  simp [random_constellations, npRand]

/-- C4: re-invoking the seeded generator with the same seed and the same
`n` yields identical output sequences, whatever the generator state was
before each call (hence also across runs). -/
theorem C4_same_seed_deterministic (seedFn : ℕ → RandState) (seed n : ℕ)
    (s1 s2 : RandState) :
    (geoid_error_seeded seedFn seed n s1).1 =
      (geoid_error_seeded seedFn seed n s2).1 ∧
    (geoid_error_seeded seedFn seed n s1).2.1 =
      (geoid_error_seeded seedFn seed n s2).2.1 :=
  ⟨rfl, rfl⟩

/-- C9: the determinism of `geoid_error` is unconditional: the seed is the
hardcoded literal `42` (the caller supplies no seed), and any two calls
with the same `n`, from arbitrary prior generator states, return identical
`(truth, estimate)` pairs. -/
theorem C9_hardcoded_seed_unconditional (seedFn : ℕ → RandState) (n : ℕ)
    (s1 s2 : RandState) :
    geoid_error seedFn n s1 = geoid_error_seeded seedFn 42 n s1 ∧
    (geoid_error seedFn n s1).1 = (geoid_error seedFn n s2).1 ∧
    (geoid_error seedFn n s1).2.1 = (geoid_error seedFn n s2).2.1 :=
  ⟨rfl, rfl, rfl⟩

/-- C5 counterexample: with `n = 1` and a concrete generator state, two
successive invocations of `geoid_error` do NOT return different output
sequences: the outputs are equal, refuting the claim as stated. -/
theorem C5_counterexample :
    ¬ (((geoid_error zeroSeedFn 1 zeroState).1,
        (geoid_error zeroSeedFn 1 zeroState).2.1) ≠
       ((geoid_error zeroSeedFn 1 (geoid_error zeroSeedFn 1 zeroState).2.2).1,
        (geoid_error zeroSeedFn 1
          (geoid_error zeroSeedFn 1 zeroState).2.2).2.1)) :=
  fun h => h rfl

/-- C5 amended: `geoid_error` always reseeds the generator with the
hardcoded seed `42`, so no unseeded path exists: two successive
invocations with the same `n` return identical output sequences. -/
theorem C5_successive_calls_identical (seedFn : ℕ → RandState) (n : ℕ)
    (s : RandState) :
    (geoid_error seedFn n s).1 =
      (geoid_error seedFn n (geoid_error seedFn n s).2.2).1 ∧
    (geoid_error seedFn n s).2.1 =
      (geoid_error seedFn n (geoid_error seedFn n s).2.2).2.1 :=
  ⟨rfl, rfl⟩

/-- C6 counterexample: a preceding `geoid_error` call does determine the
output of a later `random_constellations` call.  Starting from two
concrete states whose direct `random_constellations` outputs differ, the
outputs after an intervening `geoid_error` call coincide: the reseeding
inside `geoid_error` is a persistent change to the process-wide generator
state that alters the behaviour of the subsequent call. -/
theorem C6_counterexample :
    (random_constellations 1 1 (geoid_error zeroSeedFn 1 halfState).2.2).1 =
      (random_constellations 1 1 (geoid_error zeroSeedFn 1 zeroState).2.2).1 ∧
    (random_constellations 1 1 halfState).1 ≠
      (random_constellations 1 1 zeroState).1 := by
  refine ⟨rfl, fun h => ?_⟩
  have h0 := congrArg (fun l => l.getD 0 0) h
  simp [random_constellations, npRand, halfState, zeroState,
    Real.sqrt_one] at h0

/-- C6 amended: `geoid_error` reseeds the process-wide generator with the
fixed seed `42`, a persistent side effect: the outputs of a later
`random_constellations` call following `geoid_error` are fully determined
by that reseeding, independent of the generator state before the
`geoid_error` call. -/
theorem C6_reseed_determines_later_calls (seedFn : ℕ → RandState)
    (num gen n : ℕ) (s1 s2 : RandState) :
    (random_constellations num gen (geoid_error seedFn n s1).2.2).1 =
      (random_constellations num gen (geoid_error seedFn n s2).2.2).1 ∧
    (random_constellations num gen (geoid_error seedFn n s1).2.2).2.1 =
      (random_constellations num gen (geoid_error seedFn n s2).2.2).2.1 :=
  ⟨rfl, rfl⟩

/-- C1: for every `count ≥ 1` and `generationIndex ≥ 1` (and any
well-formed generator state), `random_constellations` returns two
sequences of length `count` whose values all lie within
`[0.02, 1/sqrt(generationIndex) + 0.02]`; the `count = 100`,
`generationIndex = 20` scenario is an instance. -/
theorem C1_paired_objectives_bounds (num gen : ℕ) (s : RandState)
    (hgen : 1 ≤ gen) (hs : s.wf) :
    (random_constellations num gen s).1.length = num ∧
    (random_constellations num gen s).2.1.length = num ∧
    (∀ v ∈ (random_constellations num gen s).1,
        0.02 ≤ v ∧ v ≤ 1 / Real.sqrt gen + 0.02) ∧
    (∀ v ∈ (random_constellations num gen s).2.1,
        0.02 ≤ v ∧ v ≤ 1 / Real.sqrt gen + 0.02) := by
  have hsq : 0 < Real.sqrt gen := Real.sqrt_pos.mpr (by exact_mod_cast hgen)
  have key : ∀ u : ℝ, 0 ≤ u → u < 1 →
      0.02 ≤ u / Real.sqrt gen + 0.02 ∧
      u / Real.sqrt gen + 0.02 ≤ 1 / Real.sqrt gen + 0.02 := by
    intro u h0 h1
    have hd0 : 0 ≤ u / Real.sqrt gen := div_nonneg h0 hsq.le
    have hd1 : u / Real.sqrt gen ≤ 1 / Real.sqrt gen := by gcongr
    constructor <;> linarith
  refine ⟨by simp [random_constellations, npRand],
          by simp [random_constellations, npRand], ?_, ?_⟩
  · intro v hv
    simp only [random_constellations, npRand, List.map_map, List.mem_map,
      List.mem_range, Function.comp] at hv
    obtain ⟨i, -, rfl⟩ := hv
    exact key _ (hs _).1 (hs _).2
  · intro v hv
    simp only [random_constellations, npRand, List.map_map, List.mem_map,
      List.mem_range, Function.comp] at hv
    obtain ⟨i, -, rfl⟩ := hv
    exact key _ (hs _).1 (hs _).2

/-- Witness for C1 at `count = 100`, `generationIndex = 20` and the
concrete state `zeroState`. -/
theorem C1_witness :
    (1 ≤ 20 ∧ zeroState.wf) ∧
    ((∀ v ∈ (random_constellations 100 20 zeroState).1,
        0.02 ≤ v ∧ v ≤ 1 / Real.sqrt (20 : ℕ) + 0.02) ∧
     (∀ v ∈ (random_constellations 100 20 zeroState).2.1,
        0.02 ≤ v ∧ v ≤ 1 / Real.sqrt (20 : ℕ) + 0.02)) := by
  have hwf : zeroState.wf := by intro i; constructor <;> simp [zeroState]
  exact ⟨⟨by decide, hwf⟩,
    (C1_paired_objectives_bounds 100 20 zeroState (by decide) hwf).2.2⟩

/-- The estimate sequence of `geoid_error` is the truth value plus the
scaled normal draw, elementwise over `List.range n`. -/
lemma geoid_estimate_eq (seedFn : ℕ → RandState) (n : ℕ) (s : RandState) :
    (geoid_error seedFn n s).2.1 = (List.range n).map
      (fun i => geoidSignal i +
        0.2 * geoidSignal i * (seedFn 42).normals ((seedFn 42).nIdx + i)) := by
  simp [geoid_error, geoid_error_seeded, npNormal, npSeed,
    List.zipWith_map, List.zipWith_same, mul_assoc]

/-- Index lemma for the truth sequence of `geoid_error`. -/
lemma geoid_truth_getD (seedFn : ℕ → RandState) (n : ℕ) (s : RandState)
    (i : ℕ) (hi : i < n) :
    (geoid_error seedFn n s).1.getD i 0 = geoidSignal i := by
  simp [geoid_error, geoid_error_seeded, npSeed,
    List.getD_eq_getElem?_getD, List.getElem?_map, List.getElem?_range, hi]

/-- Index lemma for the estimate sequence of `geoid_error`. -/
lemma geoid_estimate_getD (seedFn : ℕ → RandState) (n : ℕ) (s : RandState)
    (i : ℕ) (hi : i < n) :
    (geoid_error seedFn n s).2.1.getD i 0 = geoidSignal i +
      0.2 * geoidSignal i * (seedFn 42).normals ((seedFn 42).nIdx + i) := by
  rw [geoid_estimate_eq]
  simp [List.getD_eq_getElem?_getD, List.getElem?_map, List.getElem?_range, hi]

/-- C2: for every `n ≥ 1`, `geoid_error` returns `(truth, estimate)` with
`truth[i] = c / (i+1)^2` for the fixed constant `c = 1e-4`, and
`estimate[i] = truth[i] + noise[i]` where `noise[i]` is the normal draw of
standard deviation `0.2 * truth[i]` (the standard draw scaled by
`0.2 * truth[i]`); in particular for `n = 60`, `truth[0] = 1e-4` and
`truth[59] = 1e-4 / 3600`. -/
theorem C2_error_curve_formula (seedFn : ℕ → RandState) (n : ℕ)
    (hn : 1 ≤ n) (s : RandState) :
    geoidConst = 1e-4 ∧
    (∀ i, i < n →
      (geoid_error seedFn n s).1.getD i 0 = geoidConst / ((i : ℝ) + 1) ^ 2) ∧
    (∀ i, i < n →
      (geoid_error seedFn n s).2.1.getD i 0 =
        (geoid_error seedFn n s).1.getD i 0 +
          0.2 * (geoid_error seedFn n s).1.getD i 0 *
            (seedFn 42).normals ((seedFn 42).nIdx + i)) ∧
    (geoid_error seedFn 60 s).1.getD 0 0 = 1e-4 ∧
    (geoid_error seedFn 60 s).1.getD 59 0 = 1e-4 / 3600 := by
  refine ⟨rfl, ?_, ?_, ?_, ?_⟩
  · intro i hi
    rw [geoid_truth_getD seedFn n s i hi, geoidSignal]
  · intro i hi
    rw [geoid_estimate_getD seedFn n s i hi, geoid_truth_getD seedFn n s i hi]
  · rw [geoid_truth_getD seedFn 60 s 0 (by norm_num)]
    norm_num [geoidSignal, geoidConst]
  · rw [geoid_truth_getD seedFn 60 s 59 (by norm_num)]
    norm_num [geoidSignal, geoidConst]

/-- Witness for C2 at `n = 60` with concrete seed map and state. -/
theorem C2_witness :
    1 ≤ 60 ∧
    (geoid_error zeroSeedFn 60 zeroState).1.getD 0 0 = 1e-4 ∧
    (geoid_error zeroSeedFn 60 zeroState).1.getD 59 0 = 1e-4 / 3600 :=
  ⟨by decide,
   (C2_error_curve_formula zeroSeedFn 60 (by decide) zeroState).2.2.2⟩

/-- C3: for every `n`, `geoid_error` returns two sequences of length `n`
and the truth sequence is strictly decreasing: `truth[i+1] < truth[i]`
for every `i` with `i + 1 < n`. -/
theorem C3_truth_strictly_decreasing (seedFn : ℕ → RandState) (n : ℕ)
    (s : RandState) :
    (geoid_error seedFn n s).1.length = n ∧
    (geoid_error seedFn n s).2.1.length = n ∧
    ∀ i, i + 1 < n →
      (geoid_error seedFn n s).1.getD (i + 1) 0 <
        (geoid_error seedFn n s).1.getD i 0 := by
  refine ⟨by simp [geoid_error, geoid_error_seeded, npNormal, npSeed],
          by simp [geoid_error, geoid_error_seeded, npNormal, npSeed], ?_⟩
  intro i hi
  rw [geoid_truth_getD seedFn n s (i + 1) hi,
    geoid_truth_getD seedFn n s i (Nat.lt_of_succ_lt hi)]
  unfold geoidSignal geoidConst
  push_cast
  apply div_lt_div_of_pos_left (by norm_num) (by positivity)
  nlinarith [Nat.cast_nonneg (α := ℝ) i]

/-- Witness for C3 at `n = 3`, `i = 0` with concrete seed map and state. -/
theorem C3_witness :
    0 + 1 < 3 ∧
    (geoid_error zeroSeedFn 3 zeroState).1.getD (0 + 1) 0 <
      (geoid_error zeroSeedFn 3 zeroState).1.getD 0 0 :=
  ⟨by decide,
   (C3_truth_strictly_decreasing zeroSeedFn 3 zeroState).2.2 0 (by decide)⟩

/-- Index lemma for the first sequence of `random_constellations`. -/
lemma rc_fst_getD (num gen : ℕ) (s : RandState) (i : ℕ) (hi : i < num) :
    (random_constellations num gen s).1.getD i 0 =
      s.uniforms (s.uIdx + i) / Real.sqrt gen + 0.02 := by
  simp [random_constellations, npRand, List.getD_eq_getElem?_getD,
    List.getElem?_map, List.getElem?_range, hi]

/-- Index lemma for the second sequence of `random_constellations`. -/
lemma rc_snd_getD (num gen : ℕ) (s : RandState) (i : ℕ) (hi : i < num) :
    (random_constellations num gen s).2.1.getD i 0 =
      s.uniforms (s.uIdx + num + i) / Real.sqrt gen + 0.02 := by
  simp [random_constellations, npRand, List.getD_eq_getElem?_getD,
    List.getElem?_map, List.getElem?_range, hi]

/-- C7: increasing the generation index shrinks the spread of
`random_constellations`: the scale `1 / sqrt gen` is strictly decreasing
in `gen`, and for the same underlying draws (the same well-formed state),
a larger generation index yields values pointwise at least as close to
the offset `0.02`. -/
theorem C7_larger_generation_shrinks_spread (g1 g2 : ℕ) (h1 : 1 ≤ g1)
    (h12 : g1 < g2) :
    1 / Real.sqrt g2 < 1 / Real.sqrt g1 ∧
    ∀ (num : ℕ) (s : RandState), s.wf → ∀ i, i < num →
      |(random_constellations num g2 s).1.getD i 0 - 0.02| ≤
        |(random_constellations num g1 s).1.getD i 0 - 0.02| ∧
      |(random_constellations num g2 s).2.1.getD i 0 - 0.02| ≤
        |(random_constellations num g1 s).2.1.getD i 0 - 0.02| := by
  have hs1 : 0 < Real.sqrt g1 := Real.sqrt_pos.mpr (by exact_mod_cast h1)
  have hs2 : 0 < Real.sqrt g2 :=
    Real.sqrt_pos.mpr (by exact_mod_cast Nat.lt_of_lt_of_le h1 h12.le)
  have hsle : Real.sqrt g1 ≤ Real.sqrt g2 :=
    Real.sqrt_le_sqrt (by exact_mod_cast h12.le)
  have hstrict : 1 / Real.sqrt g2 < 1 / Real.sqrt g1 :=
    one_div_lt_one_div_of_lt hs1
      (Real.sqrt_lt_sqrt (Nat.cast_nonneg _) (by exact_mod_cast h12))
  have key : ∀ u : ℝ, 0 ≤ u →
      |u / Real.sqrt g2 + 0.02 - 0.02| ≤ |u / Real.sqrt g1 + 0.02 - 0.02| := by
    intro u hu
    have e2 : u / Real.sqrt g2 + 0.02 - 0.02 = u / Real.sqrt g2 := by ring
    have e1 : u / Real.sqrt g1 + 0.02 - 0.02 = u / Real.sqrt g1 := by ring
    rw [e1, e2, abs_of_nonneg (div_nonneg hu hs2.le),
      abs_of_nonneg (div_nonneg hu hs1.le)]
    gcongr
  refine ⟨hstrict, ?_⟩
  intro num s hw i hi
  rw [rc_fst_getD num g1 s i hi, rc_fst_getD num g2 s i hi,
    rc_snd_getD num g1 s i hi, rc_snd_getD num g2 s i hi]
  exact ⟨key _ (hw _).1, key _ (hw _).1⟩

/-- Witness for C7 at `g1 = 1`, `g2 = 2`. -/
theorem C7_witness :
    ((1 : ℕ) ≤ 1 ∧ (1 : ℕ) < 2) ∧
    1 / Real.sqrt ((2 : ℕ) : ℝ) < 1 / Real.sqrt ((1 : ℕ) : ℝ) :=
  ⟨⟨by decide, by decide⟩,
   (C7_larger_generation_shrinks_spread 1 2 (by decide) (by decide)).1⟩
